import Mathlib

/-!
Verification of the multi-source stock data collector (`aqu142.py`,
class `QuantDataCollector`).

Numeric fields are modelled as `ℚ`; the program treats the float value `0`
as "absent" (`dict.get(key, 0)`), so each numeric field of an attribute
record is a single rational with `0` meaning absent, except
`eps_from_cash`, whose *presence as a key* is tested by the source
(`'eps_from_cash' in calculated_data`) and which is therefore an
`Option ℚ`.
-/

/-- The attribute record passed around by `QuantDataCollector`: one field per
dictionary key that `calculate_comprehensive_indicators` (aqu142.py lines
632-780) reads or writes.  A missing key is the default value (`0`, `""`,
`none`), matching the `.get(key, 0)` reads of the source. -/
@[ext]
structure AttributeRecord where
  stock_code : String := ""
  stock_name : String := ""
  close_price : ℚ := 0
  pe_ttm : ℚ := 0
  pb_ratio : ℚ := 0
  ps_ttm : ℚ := 0
  pcf_ncf_ttm : ℚ := 0
  eps : ℚ := 0
  bps : ℚ := 0
  total_revenue : ℚ := 0
  eps_from_cash : Option ℚ := none
  roe : ℚ := 0
  net_income_yoy : ℚ := 0
  eps_growth : ℚ := 0
  gross_margin : ℚ := 0
  net_margin : ℚ := 0
  revenue_yoy : ℚ := 0
  net_profit_yoy : ℚ := 0
  debt_to_asset_ratio : ℚ := 0
  deducted_net_profit : ℚ := 0
  deducted_net_profit_yoy : ℚ := 0
  dividend_yield : ℚ := 0
  dividend_payout_ratio : ℚ := 0
  goodwill_to_equity_ratio : ℚ := 0
  pledge_ratio : ℚ := 0
  deriving DecidableEq

/-- aqu142.py lines 651-657: the local `eps` after the cash-flow backup
(`if eps == 0 and 'eps_from_cash' in calculated_data: eps = ...`). -/
def eps_after_cash (r : AttributeRecord) : ℚ :=
  if r.eps = 0 then r.eps_from_cash.getD 0 else r.eps

/-- aqu142.py lines 660-662: the local `eps` after step 1
(`eps = close_price / pe_ttm` when absent and derivable). -/
def eps_resolved (r : AttributeRecord) : ℚ :=
  if eps_after_cash r = 0 ∧ r.close_price ≠ 0 ∧ r.pe_ttm ≠ 0 then
    r.close_price / r.pe_ttm
  else eps_after_cash r

/-- aqu142.py lines 660-662: the `eps` *key* of the output dict.  It is only
assigned inside the derivation branch, so when the cash-flow backup supplied
the local value the key keeps its original value. -/
def eps_written (r : AttributeRecord) : ℚ :=
  if eps_after_cash r = 0 ∧ r.close_price ≠ 0 ∧ r.pe_ttm ≠ 0 then
    r.close_price / r.pe_ttm
  else r.eps

/-- aqu142.py lines 665-667: step 2, `bps = close_price / pb_ratio`. -/
def bps_resolved (r : AttributeRecord) : ℚ :=
  if r.bps = 0 ∧ r.close_price ≠ 0 ∧ r.pb_ratio ≠ 0 then
    r.close_price / r.pb_ratio
  else r.bps

/-- aqu142.py lines 670-672: step 3, `total_revenue = close_price / ps_ttm`. -/
def total_revenue_resolved (r : AttributeRecord) : ℚ :=
  if r.total_revenue = 0 ∧ r.close_price ≠ 0 ∧ r.ps_ttm ≠ 0 then
    r.close_price / r.ps_ttm
  else r.total_revenue

/-- aqu142.py lines 685-687: step 4, `roe = eps / bps` (both already
resolved). -/
def roe_resolved (r : AttributeRecord) : ℚ :=
  if r.roe = 0 ∧ eps_resolved r ≠ 0 ∧ bps_resolved r ≠ 0 then
    eps_resolved r / bps_resolved r
  else r.roe

/-- aqu142.py lines 690-693: step 5, gross margin falls back to the industry
average 25%. -/
def gross_margin_resolved (r : AttributeRecord) : ℚ :=
  if r.gross_margin = 0 then 0.25 else r.gross_margin

/-- aqu142.py lines 696-699: step 6, net margin falls back to 10%. -/
def net_margin_resolved (r : AttributeRecord) : ℚ :=
  if r.net_margin = 0 then 0.10 else r.net_margin

/-- aqu142.py lines 703-709: revenue growth; derived from the *original*
`eps_growth` (read at line 677) times 0.8, else the industry average 8%. -/
def revenue_yoy_resolved (r : AttributeRecord) : ℚ :=
  if r.revenue_yoy = 0 then
    (if r.eps_growth ≠ 0 then r.eps_growth * 0.8 else 0.08)
  else r.revenue_yoy

/-- aqu142.py lines 712-718: net-profit growth; derived from the already
updated revenue growth times 1.1, else 10%. -/
def net_profit_yoy_resolved (r : AttributeRecord) : ℚ :=
  if r.net_profit_yoy = 0 then
    (if revenue_yoy_resolved r ≠ 0 then revenue_yoy_resolved r * 1.1 else 0.10)
  else r.net_profit_yoy

/-- aqu142.py lines 721-727: attributable net-profit growth; derived from the
updated net-profit growth times 0.95, else 9%. -/
def net_income_yoy_resolved (r : AttributeRecord) : ℚ :=
  if r.net_income_yoy = 0 then
    (if net_profit_yoy_resolved r ≠ 0 then net_profit_yoy_resolved r * 0.95
     else 0.09)
  else r.net_income_yoy

/-- aqu142.py lines 730-736: EPS growth; derived from the updated revenue
growth times 1.05, else 9% (the test `eps_growth == 0` is on the original
value read at line 677). -/
def eps_growth_resolved (r : AttributeRecord) : ℚ :=
  if r.eps_growth = 0 then
    (if revenue_yoy_resolved r ≠ 0 then revenue_yoy_resolved r * 1.05 else 0.09)
  else r.eps_growth

/-- aqu142.py lines 739-742: step 8, debt-to-asset falls back to 50%. -/
def debt_to_asset_resolved (r : AttributeRecord) : ℚ :=
  if r.debt_to_asset_ratio = 0 then 0.50 else r.debt_to_asset_ratio

/-- aqu142.py lines 745-750: deducted net profit, approximated as 95% of the
resolved EPS when that is non-zero. -/
def deducted_net_profit_resolved (r : AttributeRecord) : ℚ :=
  if r.deducted_net_profit = 0 ∧ eps_resolved r ≠ 0 then
    eps_resolved r * 0.95
  else r.deducted_net_profit

/-- aqu142.py lines 752-757: deducted net-profit growth, from the updated
attributable growth, else net-profit growth, else 0.085. -/
def deducted_net_profit_yoy_resolved (r : AttributeRecord) : ℚ :=
  if r.deducted_net_profit_yoy = 0 then
    (if net_income_yoy_resolved r ≠ 0 then net_income_yoy_resolved r * 0.95
     else if net_profit_yoy_resolved r ≠ 0 then net_profit_yoy_resolved r * 0.95
     else 0.085)
  else r.deducted_net_profit_yoy

/-- aqu142.py lines 763-766: dividend yield `max(roe * 0.3, 0.01)`. -/
def dividend_yield_resolved (r : AttributeRecord) : ℚ :=
  if r.dividend_yield = 0 then max (roe_resolved r * 0.3) 0.01
  else r.dividend_yield

/-- aqu142.py lines 768-774: dividend payout: `dividend_yield / roe` when
both are non-zero, else the default 30%. -/
def dividend_payout_resolved (r : AttributeRecord) : ℚ :=
  if r.dividend_payout_ratio = 0 then
    (if roe_resolved r ≠ 0 then
      (if dividend_yield_resolved r ≠ 0 then
        dividend_yield_resolved r / roe_resolved r
       else 0.30)
     else 0.30)
  else r.dividend_payout_ratio

/-- aqu142.py lines 632-780, `calculate_comprehensive_indicators`: the
attribute reconciler.  It copies the input dict and runs steps 1-11 in
order; each `..._resolved` definition above is the value of the
corresponding key after the cascade, with the data flow between steps
exactly as in the source (later steps read the updated locals of earlier
steps).  Lines 776-778 set `goodwill_to_equity_ratio` and `pledge_ratio`
unconditionally. -/
def calculate_comprehensive_indicators (r : AttributeRecord) : AttributeRecord :=
  { r with
    eps := eps_written r
    bps := bps_resolved r
    total_revenue := total_revenue_resolved r
    roe := roe_resolved r
    gross_margin := gross_margin_resolved r
    net_margin := net_margin_resolved r
    revenue_yoy := revenue_yoy_resolved r
    net_profit_yoy := net_profit_yoy_resolved r
    net_income_yoy := net_income_yoy_resolved r
    eps_growth := eps_growth_resolved r
    debt_to_asset_ratio := debt_to_asset_resolved r
    deducted_net_profit := deducted_net_profit_resolved r
    deducted_net_profit_yoy := deducted_net_profit_yoy_resolved r
    dividend_yield := dividend_yield_resolved r
    dividend_payout_ratio := dividend_payout_resolved r
    goodwill_to_equity_ratio := 0.05
    pledge_ratio := 0.10 }

/-! Field equations of the reconciler: each output key as a function of the
input record. -/

@[simp] lemma calc_stock_code (r : AttributeRecord) :
    (calculate_comprehensive_indicators r).stock_code = r.stock_code := rfl

@[simp] lemma calc_stock_name (r : AttributeRecord) :
    (calculate_comprehensive_indicators r).stock_name = r.stock_name := rfl

@[simp] lemma calc_close_price (r : AttributeRecord) :
    (calculate_comprehensive_indicators r).close_price = r.close_price := rfl

@[simp] lemma calc_pe_ttm (r : AttributeRecord) :
    (calculate_comprehensive_indicators r).pe_ttm = r.pe_ttm := rfl

@[simp] lemma calc_pb_ratio (r : AttributeRecord) :
    (calculate_comprehensive_indicators r).pb_ratio = r.pb_ratio := rfl

@[simp] lemma calc_ps_ttm (r : AttributeRecord) :
    (calculate_comprehensive_indicators r).ps_ttm = r.ps_ttm := rfl

@[simp] lemma calc_pcf_ncf_ttm (r : AttributeRecord) :
    (calculate_comprehensive_indicators r).pcf_ncf_ttm = r.pcf_ncf_ttm := rfl

@[simp] lemma calc_eps_from_cash (r : AttributeRecord) :
    (calculate_comprehensive_indicators r).eps_from_cash = r.eps_from_cash := rfl

@[simp] lemma calc_eps (r : AttributeRecord) :
    (calculate_comprehensive_indicators r).eps = eps_written r := rfl

@[simp] lemma calc_bps (r : AttributeRecord) :
    (calculate_comprehensive_indicators r).bps = bps_resolved r := rfl

@[simp] lemma calc_total_revenue (r : AttributeRecord) :
    (calculate_comprehensive_indicators r).total_revenue = total_revenue_resolved r := rfl

@[simp] lemma calc_roe (r : AttributeRecord) :
    (calculate_comprehensive_indicators r).roe = roe_resolved r := rfl

@[simp] lemma calc_gross_margin (r : AttributeRecord) :
    (calculate_comprehensive_indicators r).gross_margin = gross_margin_resolved r := rfl

@[simp] lemma calc_net_margin (r : AttributeRecord) :
    (calculate_comprehensive_indicators r).net_margin = net_margin_resolved r := rfl

@[simp] lemma calc_revenue_yoy (r : AttributeRecord) :
    (calculate_comprehensive_indicators r).revenue_yoy = revenue_yoy_resolved r := rfl

@[simp] lemma calc_net_profit_yoy (r : AttributeRecord) :
    (calculate_comprehensive_indicators r).net_profit_yoy = net_profit_yoy_resolved r := rfl

@[simp] lemma calc_net_income_yoy (r : AttributeRecord) :
    (calculate_comprehensive_indicators r).net_income_yoy = net_income_yoy_resolved r := rfl

@[simp] lemma calc_eps_growth (r : AttributeRecord) :
    (calculate_comprehensive_indicators r).eps_growth = eps_growth_resolved r := rfl

@[simp] lemma calc_debt (r : AttributeRecord) :
    (calculate_comprehensive_indicators r).debt_to_asset_ratio = debt_to_asset_resolved r := rfl

@[simp] lemma calc_deducted_net_profit (r : AttributeRecord) :
    (calculate_comprehensive_indicators r).deducted_net_profit = deducted_net_profit_resolved r := rfl

@[simp] lemma calc_deducted_net_profit_yoy (r : AttributeRecord) :
    (calculate_comprehensive_indicators r).deducted_net_profit_yoy = deducted_net_profit_yoy_resolved r := rfl

@[simp] lemma calc_dividend_yield (r : AttributeRecord) :
    (calculate_comprehensive_indicators r).dividend_yield = dividend_yield_resolved r := rfl

@[simp] lemma calc_dividend_payout (r : AttributeRecord) :
    (calculate_comprehensive_indicators r).dividend_payout_ratio = dividend_payout_resolved r := rfl

@[simp] lemma calc_goodwill (r : AttributeRecord) :
    (calculate_comprehensive_indicators r).goodwill_to_equity_ratio = 0.05 := rfl

@[simp] lemma calc_pledge (r : AttributeRecord) :
    (calculate_comprehensive_indicators r).pledge_ratio = 0.10 := rfl

/-! The fields whose cascade ends in a non-zero constant are non-zero in
every output of the reconciler. -/

lemma gross_margin_resolved_ne_zero (r : AttributeRecord) :
    gross_margin_resolved r ≠ 0 := by
  unfold gross_margin_resolved
  split_ifs with h
  · norm_num
  · exact h

lemma net_margin_resolved_ne_zero (r : AttributeRecord) :
    net_margin_resolved r ≠ 0 := by
  unfold net_margin_resolved
  split_ifs with h
  · norm_num
  · exact h

lemma revenue_yoy_resolved_ne_zero (r : AttributeRecord) :
    revenue_yoy_resolved r ≠ 0 := by
  unfold revenue_yoy_resolved
  split_ifs with h1 h2
  · exact mul_ne_zero h2 (by norm_num)
  · norm_num
  · exact h1

lemma net_profit_yoy_resolved_ne_zero (r : AttributeRecord) :
    net_profit_yoy_resolved r ≠ 0 := by
  unfold net_profit_yoy_resolved
  split_ifs with h1 h2
  · exact mul_ne_zero h2 (by norm_num)
  · norm_num
  · exact h1

lemma net_income_yoy_resolved_ne_zero (r : AttributeRecord) :
    net_income_yoy_resolved r ≠ 0 := by
  unfold net_income_yoy_resolved
  split_ifs with h1 h2
  · exact mul_ne_zero h2 (by norm_num)
  · norm_num
  · exact h1

lemma eps_growth_resolved_ne_zero (r : AttributeRecord) :
    eps_growth_resolved r ≠ 0 := by
  unfold eps_growth_resolved
  split_ifs with h1 h2
  · exact mul_ne_zero h2 (by norm_num)
  · norm_num
  · exact h1

lemma debt_to_asset_resolved_ne_zero (r : AttributeRecord) :
    debt_to_asset_resolved r ≠ 0 := by
  unfold debt_to_asset_resolved
  split_ifs with h
  · norm_num
  · exact h

lemma deducted_net_profit_yoy_resolved_ne_zero (r : AttributeRecord) :
    deducted_net_profit_yoy_resolved r ≠ 0 := by
  unfold deducted_net_profit_yoy_resolved
  split_ifs with h1 h2 h3
  · exact mul_ne_zero h2 (by norm_num)
  · exact mul_ne_zero h3 (by norm_num)
  · norm_num
  · exact h1

lemma dividend_yield_resolved_ne_zero (r : AttributeRecord) :
    dividend_yield_resolved r ≠ 0 := by
  unfold dividend_yield_resolved
  split_ifs with h
  · exact ne_of_gt (lt_of_lt_of_le (by norm_num) (le_max_right (roe_resolved r * 0.3) 0.01))
  · exact h

lemma dividend_payout_resolved_ne_zero (r : AttributeRecord) :
    dividend_payout_resolved r ≠ 0 := by
  unfold dividend_payout_resolved
  split_ifs with h1 h2 h3
  · exact div_ne_zero h3 h2
  · norm_num
  · norm_num
  · exact h1

/-! Stability: applying the reconciler a second time resolves every cascade
to the same value.  `X_resolved (reconcile r) = X_resolved r` for each step. -/

lemma eps_after_cash_calc (r : AttributeRecord) :
    eps_after_cash (calculate_comprehensive_indicators r) = eps_resolved r := by
  conv_lhs => rw [eps_after_cash]
  rw [calc_eps, calc_eps_from_cash]
  by_cases hW : eps_after_cash r = 0 ∧ r.close_price ≠ 0 ∧ r.pe_ttm ≠ 0
  · have hw : eps_written r = r.close_price / r.pe_ttm := by
      unfold eps_written
      rw [if_pos hW]
    have hne : eps_written r ≠ 0 := by
      rw [hw]
      exact div_ne_zero hW.2.1 hW.2.2
    rw [if_neg hne, hw]
    unfold eps_resolved
    rw [if_pos hW]
  · have hw : eps_written r = r.eps := by
      unfold eps_written
      rw [if_neg hW]
    have hres : eps_resolved r = eps_after_cash r := by
      unfold eps_resolved
      rw [if_neg hW]
    rw [hw, hres]
    rfl

lemma eps_resolved_calc (r : AttributeRecord) :
    eps_resolved (calculate_comprehensive_indicators r) = eps_resolved r := by
  conv_lhs => rw [eps_resolved]
  rw [eps_after_cash_calc, calc_close_price, calc_pe_ttm]
  by_cases hW : eps_after_cash r = 0 ∧ r.close_price ≠ 0 ∧ r.pe_ttm ≠ 0
  · have hval : eps_resolved r = r.close_price / r.pe_ttm := by
      unfold eps_resolved
      rw [if_pos hW]
    have hne : eps_resolved r ≠ 0 := by
      rw [hval]
      exact div_ne_zero hW.2.1 hW.2.2
    exact if_neg (fun h => hne h.1)
  · have hres : eps_resolved r = eps_after_cash r := by
      unfold eps_resolved
      rw [if_neg hW]
    by_cases hz : eps_after_cash r = 0
    · exact if_neg (fun h => hW ⟨hz, h.2.1, h.2.2⟩)
    · exact if_neg (fun h => hz (hres ▸ h.1))

lemma eps_written_calc (r : AttributeRecord) :
    eps_written (calculate_comprehensive_indicators r) = eps_written r := by
  conv_lhs => rw [eps_written]
  rw [eps_after_cash_calc, calc_eps, calc_close_price, calc_pe_ttm]
  by_cases hW : eps_after_cash r = 0 ∧ r.close_price ≠ 0 ∧ r.pe_ttm ≠ 0
  · have hval : eps_resolved r = r.close_price / r.pe_ttm := by
      unfold eps_resolved
      rw [if_pos hW]
    have hne : eps_resolved r ≠ 0 := by
      rw [hval]
      exact div_ne_zero hW.2.1 hW.2.2
    exact if_neg (fun h => hne h.1)
  · have hres : eps_resolved r = eps_after_cash r := by
      unfold eps_resolved
      rw [if_neg hW]
    by_cases hz : eps_after_cash r = 0
    · exact if_neg (fun h => hW ⟨hz, h.2.1, h.2.2⟩)
    · exact if_neg (fun h => hz (hres ▸ h.1))

lemma total_revenue_resolved_calc (r : AttributeRecord) :
    total_revenue_resolved (calculate_comprehensive_indicators r) = total_revenue_resolved r := by
  conv_lhs => rw [total_revenue_resolved]
  rw [calc_total_revenue, calc_close_price, calc_ps_ttm]
  by_cases ht : r.total_revenue = 0
  · by_cases hd : r.close_price ≠ 0 ∧ r.ps_ttm ≠ 0
    · have hne : total_revenue_resolved r ≠ 0 := by
        unfold total_revenue_resolved
        rw [if_pos ⟨ht, hd.1, hd.2⟩]
        exact div_ne_zero hd.1 hd.2
      exact if_neg (fun h => hne h.1)
    · exact if_neg (fun h => hd ⟨h.2.1, h.2.2⟩)
  · have hne : total_revenue_resolved r ≠ 0 := by
      unfold total_revenue_resolved
      rw [if_neg (fun h => ht h.1)]
      exact ht
    exact if_neg (fun h => hne h.1)

lemma bps_resolved_calc (r : AttributeRecord) :
    bps_resolved (calculate_comprehensive_indicators r) = bps_resolved r := by
  conv_lhs => rw [bps_resolved]
  rw [calc_bps, calc_close_price, calc_pb_ratio]
  by_cases hb : r.bps = 0
  · by_cases hd : r.close_price ≠ 0 ∧ r.pb_ratio ≠ 0
    · have hne : bps_resolved r ≠ 0 := by
        unfold bps_resolved
        rw [if_pos ⟨hb, hd.1, hd.2⟩]
        exact div_ne_zero hd.1 hd.2
      exact if_neg (fun h => hne h.1)
    · exact if_neg (fun h => hd ⟨h.2.1, h.2.2⟩)
  · have hne : bps_resolved r ≠ 0 := by
      unfold bps_resolved
      rw [if_neg (fun h => hb h.1)]
      exact hb
    exact if_neg (fun h => hne h.1)

lemma roe_resolved_calc (r : AttributeRecord) :
    roe_resolved (calculate_comprehensive_indicators r) = roe_resolved r := by
  conv_lhs => rw [roe_resolved]
  rw [calc_roe, eps_resolved_calc, bps_resolved_calc]
  by_cases hr : r.roe = 0
  · by_cases hd : eps_resolved r ≠ 0 ∧ bps_resolved r ≠ 0
    · have hne : roe_resolved r ≠ 0 := by
        unfold roe_resolved
        rw [if_pos ⟨hr, hd.1, hd.2⟩]
        exact div_ne_zero hd.1 hd.2
      exact if_neg (fun h => hne h.1)
    · exact if_neg (fun h => hd ⟨h.2.1, h.2.2⟩)
  · have hne : roe_resolved r ≠ 0 := by
      unfold roe_resolved
      rw [if_neg (fun h => hr h.1)]
      exact hr
    exact if_neg (fun h => hne h.1)

lemma deducted_net_profit_resolved_calc (r : AttributeRecord) :
    deducted_net_profit_resolved (calculate_comprehensive_indicators r)
      = deducted_net_profit_resolved r := by
  conv_lhs => rw [deducted_net_profit_resolved]
  rw [calc_deducted_net_profit, eps_resolved_calc]
  by_cases hd : r.deducted_net_profit = 0
  · by_cases he : eps_resolved r ≠ 0
    · have hne : deducted_net_profit_resolved r ≠ 0 := by
        unfold deducted_net_profit_resolved
        rw [if_pos ⟨hd, he⟩]
        exact mul_ne_zero he (by norm_num)
      exact if_neg (fun h => hne h.1)
    · exact if_neg (fun h => he h.2)
  · have hne : deducted_net_profit_resolved r ≠ 0 := by
      unfold deducted_net_profit_resolved
      rw [if_neg (fun h => hd h.1)]
      exact hd
    exact if_neg (fun h => hne h.1)

lemma gross_margin_resolved_calc (r : AttributeRecord) :
    gross_margin_resolved (calculate_comprehensive_indicators r) = gross_margin_resolved r := by
  conv_lhs => rw [gross_margin_resolved]
  rw [calc_gross_margin]
  exact if_neg (gross_margin_resolved_ne_zero r)

lemma net_margin_resolved_calc (r : AttributeRecord) :
    net_margin_resolved (calculate_comprehensive_indicators r) = net_margin_resolved r := by
  conv_lhs => rw [net_margin_resolved]
  rw [calc_net_margin]
  exact if_neg (net_margin_resolved_ne_zero r)

lemma revenue_yoy_resolved_calc (r : AttributeRecord) :
    revenue_yoy_resolved (calculate_comprehensive_indicators r) = revenue_yoy_resolved r := by
  conv_lhs => rw [revenue_yoy_resolved]
  rw [calc_revenue_yoy]
  exact if_neg (revenue_yoy_resolved_ne_zero r)

lemma net_profit_yoy_resolved_calc (r : AttributeRecord) :
    net_profit_yoy_resolved (calculate_comprehensive_indicators r) = net_profit_yoy_resolved r := by
  conv_lhs => rw [net_profit_yoy_resolved]
  rw [calc_net_profit_yoy]
  exact if_neg (net_profit_yoy_resolved_ne_zero r)

lemma net_income_yoy_resolved_calc (r : AttributeRecord) :
    net_income_yoy_resolved (calculate_comprehensive_indicators r) = net_income_yoy_resolved r := by
  conv_lhs => rw [net_income_yoy_resolved]
  rw [calc_net_income_yoy]
  exact if_neg (net_income_yoy_resolved_ne_zero r)

lemma eps_growth_resolved_calc (r : AttributeRecord) :
    eps_growth_resolved (calculate_comprehensive_indicators r) = eps_growth_resolved r := by
  conv_lhs => rw [eps_growth_resolved]
  rw [calc_eps_growth]
  exact if_neg (eps_growth_resolved_ne_zero r)

lemma debt_to_asset_resolved_calc (r : AttributeRecord) :
    debt_to_asset_resolved (calculate_comprehensive_indicators r) = debt_to_asset_resolved r := by
  conv_lhs => rw [debt_to_asset_resolved]
  rw [calc_debt]
  exact if_neg (debt_to_asset_resolved_ne_zero r)

lemma deducted_net_profit_yoy_resolved_calc (r : AttributeRecord) :
    deducted_net_profit_yoy_resolved (calculate_comprehensive_indicators r)
      = deducted_net_profit_yoy_resolved r := by
  conv_lhs => rw [deducted_net_profit_yoy_resolved]
  rw [calc_deducted_net_profit_yoy]
  exact if_neg (deducted_net_profit_yoy_resolved_ne_zero r)

lemma dividend_yield_resolved_calc (r : AttributeRecord) :
    dividend_yield_resolved (calculate_comprehensive_indicators r) = dividend_yield_resolved r := by
  conv_lhs => rw [dividend_yield_resolved]
  rw [calc_dividend_yield]
  exact if_neg (dividend_yield_resolved_ne_zero r)

lemma dividend_payout_resolved_calc (r : AttributeRecord) :
    dividend_payout_resolved (calculate_comprehensive_indicators r) = dividend_payout_resolved r := by
  conv_lhs => rw [dividend_payout_resolved]
  rw [calc_dividend_payout]
  exact if_neg (dividend_payout_resolved_ne_zero r)

/-- The record with every key absent: every numeric field at the
zero-as-absent default. -/
def emptyRecord : AttributeRecord := {}

/-- A record carrying a directly observed non-zero value in every numeric
field, used to exercise the preservation clauses of the reconciler. -/
def fullRecord : AttributeRecord :=
  { stock_code := "sh.600000"
    stock_name := "浦发银行"
    close_price := 10
    pe_ttm := 5
    pb_ratio := 2
    ps_ttm := 4
    pcf_ncf_ttm := 3
    eps := 2
    bps := 5
    total_revenue := 7
    eps_from_cash := some 1
    roe := 2/5
    net_income_yoy := 1/10
    eps_growth := 1/5
    gross_margin := 3/10
    net_margin := 1/10
    revenue_yoy := 1/10
    net_profit_yoy := 1/10
    debt_to_asset_ratio := 2/5
    deducted_net_profit := 1
    deducted_net_profit_yoy := 1/10
    dividend_yield := 1/50
    dividend_payout_ratio := 1/4
    goodwill_to_equity_ratio := 1/5
    pledge_ratio := 3/10 }

/-- C10: for every input record the reconciler sets
`goodwill_to_equity_ratio` to exactly 0.05 and `pledge_ratio` to exactly
0.10, unconditionally — in particular also when the input carries different
non-zero observed values for them (aqu142.py lines 776-778). -/
theorem c10_fixed_ratios (r : AttributeRecord) :
    (calculate_comprehensive_indicators r).goodwill_to_equity_ratio = 0.05 ∧
    (calculate_comprehensive_indicators r).pledge_ratio = 0.10 :=
  ⟨rfl, rfl⟩

/-- C4: the reconciler is idempotent; applying
`calculate_comprehensive_indicators` twice gives the same record as applying
it once. -/
theorem c4_idempotence (r : AttributeRecord) :
    calculate_comprehensive_indicators (calculate_comprehensive_indicators r)
      = calculate_comprehensive_indicators r := by
  apply AttributeRecord.ext <;>
    simp [eps_written_calc, bps_resolved_calc, total_revenue_resolved_calc, roe_resolved_calc,
      gross_margin_resolved_calc, net_margin_resolved_calc, revenue_yoy_resolved_calc,
      net_profit_yoy_resolved_calc, net_income_yoy_resolved_calc, eps_growth_resolved_calc,
      debt_to_asset_resolved_calc, deducted_net_profit_resolved_calc,
      deducted_net_profit_yoy_resolved_calc, dividend_yield_resolved_calc,
      dividend_payout_resolved_calc]

/-- C2 counterexample: reconciling the fully empty record leaves the price,
the valuation ratios, the per-share earnings and book value, the revenue and
the profitability ratio at zero/absent, so not every required field of the
output is non-zero. -/
theorem c2_counterexample :
    (calculate_comprehensive_indicators emptyRecord).close_price = 0 ∧
    (calculate_comprehensive_indicators emptyRecord).pe_ttm = 0 ∧
    (calculate_comprehensive_indicators emptyRecord).pb_ratio = 0 ∧
    (calculate_comprehensive_indicators emptyRecord).ps_ttm = 0 ∧
    (calculate_comprehensive_indicators emptyRecord).eps = 0 ∧
    (calculate_comprehensive_indicators emptyRecord).bps = 0 ∧
    (calculate_comprehensive_indicators emptyRecord).total_revenue = 0 ∧
    (calculate_comprehensive_indicators emptyRecord).roe = 0 := by
  norm_num [emptyRecord, calc_close_price, calc_pe_ttm, calc_pb_ratio, calc_ps_ttm,
    calc_eps, calc_bps, calc_total_revenue, calc_roe, eps_written, eps_resolved,
    eps_after_cash, bps_resolved, total_revenue_resolved, roe_resolved]

/-- C2 (amended): the reconciler is a total Lean function, and in every
output the margins, the growth ratios, the leverage ratio, the dividend
fields and the goodwill and pledge ratios are non-zero; but the price, the
valuation ratios, the per-share earnings, the book value, the revenue and
the profitability ratio may remain zero (they have no terminal fallback
constant). -/
theorem c2_totality_amended (r : AttributeRecord) :
    (calculate_comprehensive_indicators r).gross_margin ≠ 0 ∧
    (calculate_comprehensive_indicators r).net_margin ≠ 0 ∧
    (calculate_comprehensive_indicators r).revenue_yoy ≠ 0 ∧
    (calculate_comprehensive_indicators r).net_profit_yoy ≠ 0 ∧
    (calculate_comprehensive_indicators r).net_income_yoy ≠ 0 ∧
    (calculate_comprehensive_indicators r).eps_growth ≠ 0 ∧
    (calculate_comprehensive_indicators r).debt_to_asset_ratio ≠ 0 ∧
    (calculate_comprehensive_indicators r).deducted_net_profit_yoy ≠ 0 ∧
    (calculate_comprehensive_indicators r).dividend_yield ≠ 0 ∧
    (calculate_comprehensive_indicators r).dividend_payout_ratio ≠ 0 ∧
    (calculate_comprehensive_indicators r).goodwill_to_equity_ratio ≠ 0 ∧
    (calculate_comprehensive_indicators r).pledge_ratio ≠ 0 :=
  ⟨gross_margin_resolved_ne_zero r, net_margin_resolved_ne_zero r,
   revenue_yoy_resolved_ne_zero r, net_profit_yoy_resolved_ne_zero r,
   net_income_yoy_resolved_ne_zero r, eps_growth_resolved_ne_zero r,
   debt_to_asset_resolved_ne_zero r, deducted_net_profit_yoy_resolved_ne_zero r,
   dividend_yield_resolved_ne_zero r, dividend_payout_resolved_ne_zero r,
   by norm_num [calc_goodwill], by norm_num [calc_pledge]⟩

/-- C1 counterexample: for the fully absent scenario record the reconciler
does not produce the terminal constants the claim lists for the growth
fields: net-profit growth is 0.08 × 1.1 = 0.088 (not 0.10), attributable
growth is 0.088 × 0.95 = 0.0836 (not 0.09) and eps growth is 0.08 × 1.05 =
0.084 (not 0.09), because those cascades reuse the already-backfilled
revenue growth instead of their own terminal constants. -/
theorem c1_counterexample :
    (calculate_comprehensive_indicators emptyRecord).net_profit_yoy = 11/125 ∧
    (11/125 : ℚ) ≠ 0.10 ∧
    (calculate_comprehensive_indicators emptyRecord).net_income_yoy = 209/2500 ∧
    (209/2500 : ℚ) ≠ 0.09 ∧
    (calculate_comprehensive_indicators emptyRecord).eps_growth = 21/250 ∧
    (21/250 : ℚ) ≠ 0.09 := by
  norm_num [emptyRecord, calc_net_profit_yoy, calc_net_income_yoy, calc_eps_growth,
    net_profit_yoy_resolved, net_income_yoy_resolved, eps_growth_resolved,
    revenue_yoy_resolved]

/-- C1 (amended): an entity record with no price data, no profitability
ratio, no margins and no growth data reconciles to: gross margin 0.25, net
margin 0.10, revenue growth 0.08, net-profit growth 0.088, attributable
net-profit growth 0.0836, eps growth 0.084, leverage ratio 0.50, goodwill
ratio 0.05, pledge ratio 0.10 and dividend payout ratio 0.30 — the growth
fallbacks cascade through the proportional formulas (×1.1, ×0.95, ×1.05 of
the backfilled revenue growth) instead of stopping at their terminal
constants. -/
theorem c1_terminal_fallback_amended (r : AttributeRecord)
    (hclose : r.close_price = 0) (heps : r.eps = 0) (hefc : r.eps_from_cash = none)
    (hbps : r.bps = 0) (hroe : r.roe = 0)
    (hgm : r.gross_margin = 0) (hnm : r.net_margin = 0)
    (hry : r.revenue_yoy = 0) (hnp : r.net_profit_yoy = 0) (hni : r.net_income_yoy = 0)
    (heg : r.eps_growth = 0) (hdebt : r.debt_to_asset_ratio = 0)
    (hdy : r.dividend_yield = 0) (hdpr : r.dividend_payout_ratio = 0) :
    (calculate_comprehensive_indicators r).gross_margin = 0.25 ∧
    (calculate_comprehensive_indicators r).net_margin = 0.10 ∧
    (calculate_comprehensive_indicators r).revenue_yoy = 0.08 ∧
    (calculate_comprehensive_indicators r).net_profit_yoy = 0.088 ∧
    (calculate_comprehensive_indicators r).net_income_yoy = 0.0836 ∧
    (calculate_comprehensive_indicators r).eps_growth = 0.084 ∧
    (calculate_comprehensive_indicators r).debt_to_asset_ratio = 0.50 ∧
    (calculate_comprehensive_indicators r).goodwill_to_equity_ratio = 0.05 ∧
    (calculate_comprehensive_indicators r).pledge_ratio = 0.10 ∧
    (calculate_comprehensive_indicators r).dividend_payout_ratio = 0.30 := by
  norm_num [calc_gross_margin, calc_net_margin, calc_revenue_yoy, calc_net_profit_yoy,
    calc_net_income_yoy, calc_eps_growth, calc_debt, calc_goodwill, calc_pledge,
    calc_dividend_payout, gross_margin_resolved, net_margin_resolved,
    revenue_yoy_resolved, net_profit_yoy_resolved, net_income_yoy_resolved,
    eps_growth_resolved, debt_to_asset_resolved, dividend_payout_resolved,
    dividend_yield_resolved, roe_resolved, eps_resolved, eps_after_cash, bps_resolved,
    hclose, heps, hefc, hbps, hroe, hgm, hnm, hry, hnp, hni, heg, hdebt, hdy, hdpr]

/-- Witness for C1 (amended): the empty record satisfies every hypothesis and
the amended conclusion follows from the theorem. -/
theorem c1_terminal_fallback_witness :
    (calculate_comprehensive_indicators emptyRecord).gross_margin = 0.25 ∧
    (calculate_comprehensive_indicators emptyRecord).net_margin = 0.10 ∧
    (calculate_comprehensive_indicators emptyRecord).revenue_yoy = 0.08 ∧
    (calculate_comprehensive_indicators emptyRecord).net_profit_yoy = 0.088 ∧
    (calculate_comprehensive_indicators emptyRecord).net_income_yoy = 0.0836 ∧
    (calculate_comprehensive_indicators emptyRecord).eps_growth = 0.084 ∧
    (calculate_comprehensive_indicators emptyRecord).debt_to_asset_ratio = 0.50 ∧
    (calculate_comprehensive_indicators emptyRecord).goodwill_to_equity_ratio = 0.05 ∧
    (calculate_comprehensive_indicators emptyRecord).pledge_ratio = 0.10 ∧
    (calculate_comprehensive_indicators emptyRecord).dividend_payout_ratio = 0.30 :=
  c1_terminal_fallback_amended emptyRecord rfl rfl rfl rfl rfl rfl rfl rfl rfl rfl rfl
    rfl rfl rfl

/-- C3 counterexample: a record with directly observed non-zero goodwill and
pledge ratios has both overwritten by the reconciler's fixed constants
(aqu142.py lines 776-778), so an observed value is not always returned
unchanged. -/
theorem c3_counterexample :
    fullRecord.goodwill_to_equity_ratio = 1/5 ∧ (1/5 : ℚ) ≠ 0 ∧
    (calculate_comprehensive_indicators fullRecord).goodwill_to_equity_ratio = 0.05 ∧
    (0.05 : ℚ) ≠ 1/5 ∧
    fullRecord.pledge_ratio = 3/10 ∧ (3/10 : ℚ) ≠ 0 ∧
    (calculate_comprehensive_indicators fullRecord).pledge_ratio = 0.10 ∧
    (0.10 : ℚ) ≠ 3/10 := by
  norm_num [fullRecord, calc_goodwill, calc_pledge]

/-- C3 (amended): every field except `goodwill_to_equity_ratio` and
`pledge_ratio` keeps a directly observed non-zero value through the
reconciler (the pure pass-through fields are kept unconditionally); those
two fields are unconditionally overwritten with 0.05 and 0.10. -/
theorem c3_cascade_priority_amended (r : AttributeRecord) :
    (calculate_comprehensive_indicators r).close_price = r.close_price ∧
    (calculate_comprehensive_indicators r).pe_ttm = r.pe_ttm ∧
    (calculate_comprehensive_indicators r).pb_ratio = r.pb_ratio ∧
    (calculate_comprehensive_indicators r).ps_ttm = r.ps_ttm ∧
    (calculate_comprehensive_indicators r).pcf_ncf_ttm = r.pcf_ncf_ttm ∧
    (r.eps ≠ 0 → (calculate_comprehensive_indicators r).eps = r.eps) ∧
    (r.bps ≠ 0 → (calculate_comprehensive_indicators r).bps = r.bps) ∧
    (r.total_revenue ≠ 0 →
      (calculate_comprehensive_indicators r).total_revenue = r.total_revenue) ∧
    (r.roe ≠ 0 → (calculate_comprehensive_indicators r).roe = r.roe) ∧
    (r.gross_margin ≠ 0 →
      (calculate_comprehensive_indicators r).gross_margin = r.gross_margin) ∧
    (r.net_margin ≠ 0 →
      (calculate_comprehensive_indicators r).net_margin = r.net_margin) ∧
    (r.revenue_yoy ≠ 0 →
      (calculate_comprehensive_indicators r).revenue_yoy = r.revenue_yoy) ∧
    (r.net_profit_yoy ≠ 0 →
      (calculate_comprehensive_indicators r).net_profit_yoy = r.net_profit_yoy) ∧
    (r.net_income_yoy ≠ 0 →
      (calculate_comprehensive_indicators r).net_income_yoy = r.net_income_yoy) ∧
    (r.eps_growth ≠ 0 →
      (calculate_comprehensive_indicators r).eps_growth = r.eps_growth) ∧
    (r.debt_to_asset_ratio ≠ 0 →
      (calculate_comprehensive_indicators r).debt_to_asset_ratio = r.debt_to_asset_ratio) ∧
    (r.deducted_net_profit ≠ 0 →
      (calculate_comprehensive_indicators r).deducted_net_profit = r.deducted_net_profit) ∧
    (r.deducted_net_profit_yoy ≠ 0 →
      (calculate_comprehensive_indicators r).deducted_net_profit_yoy
        = r.deducted_net_profit_yoy) ∧
    (r.dividend_yield ≠ 0 →
      (calculate_comprehensive_indicators r).dividend_yield = r.dividend_yield) ∧
    (r.dividend_payout_ratio ≠ 0 →
      (calculate_comprehensive_indicators r).dividend_payout_ratio
        = r.dividend_payout_ratio) ∧
    (calculate_comprehensive_indicators r).goodwill_to_equity_ratio = 0.05 ∧
    (calculate_comprehensive_indicators r).pledge_ratio = 0.10 := by
  refine ⟨rfl, rfl, rfl, rfl, rfl, ?_, ?_, ?_, ?_, ?_, ?_, ?_, ?_, ?_, ?_, ?_, ?_, ?_,
    ?_, ?_, rfl, rfl⟩
  · intro h
    have ha : eps_after_cash r = r.eps := by
      unfold eps_after_cash
      rw [if_neg h]
    rw [calc_eps]
    unfold eps_written
    rw [if_neg (fun hc => h (ha ▸ hc.1))]
  · intro h
    rw [calc_bps]
    unfold bps_resolved
    rw [if_neg (fun hc => h hc.1)]
  · intro h
    rw [calc_total_revenue]
    unfold total_revenue_resolved
    rw [if_neg (fun hc => h hc.1)]
  · intro h
    rw [calc_roe]
    unfold roe_resolved
    rw [if_neg (fun hc => h hc.1)]
  · intro h
    rw [calc_gross_margin]
    unfold gross_margin_resolved
    rw [if_neg h]
  · intro h
    rw [calc_net_margin]
    unfold net_margin_resolved
    rw [if_neg h]
  · intro h
    rw [calc_revenue_yoy]
    unfold revenue_yoy_resolved
    rw [if_neg h]
  · intro h
    rw [calc_net_profit_yoy]
    unfold net_profit_yoy_resolved
    rw [if_neg h]
  · intro h
    rw [calc_net_income_yoy]
    unfold net_income_yoy_resolved
    rw [if_neg h]
  · intro h
    rw [calc_eps_growth]
    unfold eps_growth_resolved
    rw [if_neg h]
  · intro h
    rw [calc_debt]
    unfold debt_to_asset_resolved
    rw [if_neg h]
  · intro h
    rw [calc_deducted_net_profit]
    unfold deducted_net_profit_resolved
    rw [if_neg (fun hc => h hc.1)]
  · intro h
    rw [calc_deducted_net_profit_yoy]
    unfold deducted_net_profit_yoy_resolved
    rw [if_neg h]
  · intro h
    rw [calc_dividend_yield]
    unfold dividend_yield_resolved
    rw [if_neg h]
  · intro h
    rw [calc_dividend_payout]
    unfold dividend_payout_resolved
    rw [if_neg h]

/-- Witness for C3 (amended): on a record with every numeric field observed
non-zero, all preservation clauses fire and the two fixed fields are
overwritten. -/
theorem c3_cascade_priority_witness :
    (calculate_comprehensive_indicators fullRecord).eps = fullRecord.eps ∧
    (calculate_comprehensive_indicators fullRecord).bps = fullRecord.bps ∧
    (calculate_comprehensive_indicators fullRecord).total_revenue = fullRecord.total_revenue ∧
    (calculate_comprehensive_indicators fullRecord).roe = fullRecord.roe ∧
    (calculate_comprehensive_indicators fullRecord).gross_margin = fullRecord.gross_margin ∧
    (calculate_comprehensive_indicators fullRecord).net_margin = fullRecord.net_margin ∧
    (calculate_comprehensive_indicators fullRecord).revenue_yoy = fullRecord.revenue_yoy ∧
    (calculate_comprehensive_indicators fullRecord).net_profit_yoy = fullRecord.net_profit_yoy ∧
    (calculate_comprehensive_indicators fullRecord).net_income_yoy = fullRecord.net_income_yoy ∧
    (calculate_comprehensive_indicators fullRecord).eps_growth = fullRecord.eps_growth ∧
    (calculate_comprehensive_indicators fullRecord).debt_to_asset_ratio
      = fullRecord.debt_to_asset_ratio ∧
    (calculate_comprehensive_indicators fullRecord).deducted_net_profit
      = fullRecord.deducted_net_profit ∧
    (calculate_comprehensive_indicators fullRecord).deducted_net_profit_yoy
      = fullRecord.deducted_net_profit_yoy ∧
    (calculate_comprehensive_indicators fullRecord).dividend_yield
      = fullRecord.dividend_yield ∧
    (calculate_comprehensive_indicators fullRecord).dividend_payout_ratio
      = fullRecord.dividend_payout_ratio ∧
    (calculate_comprehensive_indicators fullRecord).goodwill_to_equity_ratio = 0.05 ∧
    (calculate_comprehensive_indicators fullRecord).pledge_ratio = 0.10 := by
  obtain ⟨-, -, -, -, -, h6, h7, h8, h9, h10, h11, h12, h13, h14, h15, h16, h17, h18,
    h19, h20, h21, h22⟩ := c3_cascade_priority_amended fullRecord
  exact ⟨h6 (by norm_num [fullRecord]), h7 (by norm_num [fullRecord]),
    h8 (by norm_num [fullRecord]), h9 (by norm_num [fullRecord]),
    h10 (by norm_num [fullRecord]), h11 (by norm_num [fullRecord]),
    h12 (by norm_num [fullRecord]), h13 (by norm_num [fullRecord]),
    h14 (by norm_num [fullRecord]), h15 (by norm_num [fullRecord]),
    h16 (by norm_num [fullRecord]), h17 (by norm_num [fullRecord]),
    h18 (by norm_num [fullRecord]), h19 (by norm_num [fullRecord]),
    h20 (by norm_num [fullRecord]), h21, h22⟩

/-! The failover resolver (`QuantDataCollector.get_all_stocks`,
`get_stock_indicator_data`, `switch_to_next_source`) and the pipeline
orchestrator (`collect_all_data`).  Python's `str.startswith(p)` is embedded
as the character-list prefix test. -/

/-- Python `s.startswith(p)`: the characters of `p` are a prefix of the
characters of `s`. -/
def str_startswith (s p : String) : Bool := p.data.isPrefixOf s.data

/-- The failover state of `QuantDataCollector` (aqu142.py lines 26-42): the
priority list `self.data_sources`, the rotating index
`self.current_source_index` and the current source name `self.data_source`. -/
structure CollectorState where
  data_sources : List String
  current_source_index : ℕ
  data_source : String
  deriving DecidableEq

/-- The state right after `__init__` (aqu142.py lines 18-42):
`data_sources = ['baostock', 'eastmoney', 'ths']`, index 0, source
`'baostock'`. -/
def initialState : CollectorState :=
  { data_sources := ["baostock", "eastmoney", "ths"]
    current_source_index := 0
    data_source := "baostock" }

/-- aqu142.py lines 63-69, `switch_to_next_source`: advance the rotating
index by one modulo the length of the priority list and point
`data_source` at the new entry; the list itself is never modified. -/
def switch_to_next_source (s : CollectorState) : CollectorState :=
  let idx := (s.current_source_index + 1) % s.data_sources.length
  { s with
    current_source_index := idx
    data_source := s.data_sources.getD idx "" }

@[simp] lemma switch_data_sources (s : CollectorState) :
    (switch_to_next_source s).data_sources = s.data_sources := rfl

/-- One universe-listing adapter call, dispatched on the source name as in
aqu142.py lines 220-231.  `Except.error` models a call that raises (the
exception is caught by the loop); an unknown source name has no branch in
the source and can never return, which is `Except.ok []` (an empty list is
never accepted). -/
def universe_fetch (fbao fem fths : Except Unit (List String)) (source : String) :
    Except Unit (List String) :=
  if source = "baostock" then fbao
  else if source = "eastmoney" then fem
  else if source = "ths" then fths
  else Except.ok []

/-- The body of `get_all_stocks` (aqu142.py lines 206-243): iterate `i` over
`range(len(data_sources))`, read `data_sources[i]`, return the fetched list
when it is non-empty (`if stocks:`), otherwise fall through; after a failed
iteration that is not the last one, `switch_to_next_source` is called. -/
def get_all_stocks_go (fbao fem fths : Except Unit (List String)) :
    List ℕ → CollectorState → List String × CollectorState
  | [], s => ([], s)
  | i :: rest, s =>
    match universe_fetch fbao fem fths (s.data_sources.getD i "") with
    | Except.ok stocks =>
      if stocks ≠ [] then (stocks, s)
      else
        get_all_stocks_go fbao fem fths rest
          (if i < s.data_sources.length - 1 then switch_to_next_source s else s)
    | Except.error _ =>
      get_all_stocks_go fbao fem fths rest
        (if i < s.data_sources.length - 1 then switch_to_next_source s else s)

/-- aqu142.py lines 206-243, `get_all_stocks`: fetch the stock universe with
failover over the priority list; returns `[]` when every source fails. -/
def get_all_stocks (fbao fem fths : Except Unit (List String)) (s : CollectorState) :
    List String × CollectorState :=
  get_all_stocks_go fbao fem fths (List.range s.data_sources.length) s

/-- C5: with the priority list `[baostock, eastmoney, ths]`, when the first
adapter raises and the second returns a usable (non-empty) universe, the
resolver returns the second adapter's result; the failed adapter is not
removed — the priority list is unchanged as a list, and the rotation of the
failure is recorded in `current_source_index`, so the list rotated to the
current index reads `[eastmoney, ths, baostock]`: the failed source moved to
the back, still eligible. -/
theorem c5_failover_order (fbao fem fths : Except Unit (List String)) (l : List String)
    (hA : fbao = Except.error ()) (hB : fem = Except.ok l) (hl : l ≠ []) :
    (get_all_stocks fbao fem fths initialState).1 = l ∧
    (get_all_stocks fbao fem fths initialState).2.data_sources
      = ["baostock", "eastmoney", "ths"] ∧
    (get_all_stocks fbao fem fths initialState).2.current_source_index = 1 ∧
    ((get_all_stocks fbao fem fths initialState).2.data_sources.rotate
        (get_all_stocks fbao fem fths initialState).2.current_source_index)
      = ["eastmoney", "ths", "baostock"] ∧
    "baostock" ∈ (get_all_stocks fbao fem fths initialState).2.data_sources := by
  subst hA hB
  have hrange : List.range initialState.data_sources.length = [0, 1, 2] := rfl
  unfold get_all_stocks
  rw [hrange]
  simp [get_all_stocks_go, universe_fetch, initialState, switch_to_next_source, hl,
    List.rotate]

/-- Witness for C5: literal injected adapters — the first raises, the second
returns `["sh.600000"]`, the third returns an empty list. -/
theorem c5_failover_order_witness :
    (get_all_stocks (Except.error ()) (Except.ok ["sh.600000"]) (Except.ok [])
        initialState).1 = ["sh.600000"] ∧
    (get_all_stocks (Except.error ()) (Except.ok ["sh.600000"]) (Except.ok [])
        initialState).2.data_sources = ["baostock", "eastmoney", "ths"] ∧
    (get_all_stocks (Except.error ()) (Except.ok ["sh.600000"]) (Except.ok [])
        initialState).2.current_source_index = 1 ∧
    ((get_all_stocks (Except.error ()) (Except.ok ["sh.600000"]) (Except.ok [])
        initialState).2.data_sources.rotate
      (get_all_stocks (Except.error ()) (Except.ok ["sh.600000"]) (Except.ok [])
        initialState).2.current_source_index) = ["eastmoney", "ths", "baostock"] ∧
    "baostock" ∈ (get_all_stocks (Except.error ()) (Except.ok ["sh.600000"]) (Except.ok [])
        initialState).2.data_sources :=
  c5_failover_order (Except.error ()) (Except.ok ["sh.600000"]) (Except.ok [])
    ["sh.600000"] rfl rfl (by simp)

/-- A value stored in a fetched record: the source stores floats and
strings. -/
inductive Value where
  | num (q : ℚ)
  | str (s : String)
  deriving DecidableEq

/-- A fetched per-stock record, as the Python dict of an adapter: keys in
insertion order with their values. -/
abbrev Dict := List (String × Value)

/-- `d.get(k, 0)` for a numeric key: the stored rational, `0` when the key
is absent (or holds a non-numeric value). -/
def Dict.getNum (d : Dict) (k : String) : ℚ :=
  match d.find? (fun p => p.1 == k) with
  | some (_, Value.num q) => q
  | _ => 0

/-- `d.get(k, '')` for a string key. -/
def Dict.getStr (d : Dict) (k : String) : String :=
  match d.find? (fun p => p.1 == k) with
  | some (_, Value.str t) => t
  | _ => ""

/-- Python `k in d`. -/
def Dict.hasKey (d : Dict) (k : String) : Bool :=
  d.any (fun p => p.1 == k)

/-- Read a fetched dict into the typed attribute record, key by key: exactly
the keys `calculate_comprehensive_indicators` reads, with the
`.get(key, 0)`/absence conventions of the source. -/
def toAttributeRecord (d : Dict) : AttributeRecord :=
  { stock_code := Dict.getStr d "stock_code"
    stock_name := Dict.getStr d "stock_name"
    close_price := Dict.getNum d "close_price"
    pe_ttm := Dict.getNum d "pe_ttm"
    pb_ratio := Dict.getNum d "pb_ratio"
    ps_ttm := Dict.getNum d "ps_ttm"
    pcf_ncf_ttm := Dict.getNum d "pcf_ncf_ttm"
    eps := Dict.getNum d "eps"
    bps := Dict.getNum d "bps"
    total_revenue := Dict.getNum d "total_revenue"
    eps_from_cash :=
      if Dict.hasKey d "eps_from_cash" then some (Dict.getNum d "eps_from_cash")
      else none
    roe := Dict.getNum d "roe"
    net_income_yoy := Dict.getNum d "net_income_yoy"
    eps_growth := Dict.getNum d "eps_growth"
    gross_margin := Dict.getNum d "gross_margin"
    net_margin := Dict.getNum d "net_margin"
    revenue_yoy := Dict.getNum d "revenue_yoy"
    net_profit_yoy := Dict.getNum d "net_profit_yoy"
    debt_to_asset_ratio := Dict.getNum d "debt_to_asset_ratio"
    deducted_net_profit := Dict.getNum d "deducted_net_profit"
    deducted_net_profit_yoy := Dict.getNum d "deducted_net_profit_yoy"
    dividend_yield := Dict.getNum d "dividend_yield"
    dividend_payout_ratio := Dict.getNum d "dividend_payout_ratio"
    goodwill_to_equity_ratio := Dict.getNum d "goodwill_to_equity_ratio"
    pledge_ratio := Dict.getNum d "pledge_ratio" }

/-- The identity-only placeholder `{'stock_code': code, 'stock_name': code}`
returned by `get_stock_indicator_data` when every source fails (aqu142.py
line 630). -/
def placeholder_record (code : String) : Dict :=
  [("stock_code", Value.str code), ("stock_name", Value.str code)]

/-- One iteration of the dispatch in `get_stock_indicator_data` (aqu142.py
lines 610-621): dispatch on the source name.  The `baostock` branch returns
its dict when it is truthy (`if data:`, i.e. non-empty); the `eastmoney`
branch additionally requires more than one key
(`if data and len(data) > 1:`); the `ths` source has no branch at all.  A
raised call (`Except.error`, caught by the source's `try`) falls through
exactly like an unusable result, so both are `none` here. -/
def one_fetch (fbao fem : String → Except Unit Dict) (code source : String) :
    Option Dict :=
  if source = "baostock" then
    match fbao code with
    | Except.ok data => if data ≠ [] then some data else none
    | Except.error _ => none
  else if source = "eastmoney" then
    match fem code with
    | Except.ok data => if data ≠ [] ∧ data.length > 1 then some data else none
    | Except.error _ => none
  else none

/-- The loop of `get_stock_indicator_data` (aqu142.py lines 604-630): per
index `i`, read `data_sources[i]` and dispatch; return the first usable
dict; after an iteration without a usable result that is not the last one,
`switch_to_next_source` is called. -/
def get_stock_indicator_data_go (fbao fem : String → Except Unit Dict) (code : String) :
    List ℕ → CollectorState → Dict × CollectorState
  | [], s => (placeholder_record code, s)
  | i :: rest, s =>
    match one_fetch fbao fem code (s.data_sources.getD i "") with
    | some data => (data, s)
    | none =>
      get_stock_indicator_data_go fbao fem code rest
        (if i < s.data_sources.length - 1 then switch_to_next_source s else s)

/-- aqu142.py lines 593-630, `get_stock_indicator_data`: fetch one stock's
indicator dict with failover; when every source fails, return the
identity-only placeholder. -/
def get_stock_indicator_data (fbao fem : String → Except Unit Dict) (code : String)
    (s : CollectorState) : Dict × CollectorState :=
  get_stock_indicator_data_go fbao fem code (List.range s.data_sources.length) s

/-- aqu142.py lines 994-1012, `_get_stock_board`: classify a stock code into
a market segment by its prefix; the STAR-board prefix `sh.688` is checked
first, then the main-board prefixes, then `sz.300`; everything else is
`其他`. -/
def _get_stock_board (stock_code : String) : String :=
  if str_startswith stock_code "sh.688" then "科创板"
  else if str_startswith stock_code "sh.600" ∨ str_startswith stock_code "sh.601"
      ∨ str_startswith stock_code "sh.603" then "主板"
  else if str_startswith stock_code "sz.000" then "主板"
  else if str_startswith stock_code "sz.300" then "创业板"
  else "其他"

/-- The per-stock loop of `collect_all_data` (aqu142.py lines 903-937): for
each code, fetch the indicator dict with failover, reconcile it, attach the
market segment, and append; the failover state threads through the loop.
The `except` branch of the source (lines 923-933) is unreachable here
because `get_stock_indicator_data` catches every adapter exception itself
and the remaining body is pure. -/
def collect_all_data (fbao fem : String → Except Unit Dict) :
    List String → CollectorState → List (AttributeRecord × String) × CollectorState
  | [], s => ([], s)
  | stock :: rest, s =>
    let fetched := get_stock_indicator_data fbao fem stock s
    let calculated := calculate_comprehensive_indicators (toAttributeRecord fetched.1)
    let tail := collect_all_data fbao fem rest fetched.2
    ((calculated, _get_stock_board stock) :: tail.1, tail.2)

lemma toAttributeRecord_placeholder (c : String) :
    toAttributeRecord (placeholder_record c) = { stock_code := c, stock_name := c } := rfl

lemma gsid_go_data_sources (fbao fem : String → Except Unit Dict) (code : String) :
    ∀ (idxs : List ℕ) (s : CollectorState),
      ((get_stock_indicator_data_go fbao fem code idxs s).2).data_sources = s.data_sources := by
  intro idxs
  induction idxs with
  | nil => intro s; rfl
  | cons i rest ih =>
    intro s
    cases h : one_fetch fbao fem code (s.data_sources.getD i "") with
    | some data => simp only [get_stock_indicator_data_go, h]
    | none =>
      simp only [get_stock_indicator_data_go, h]
      rw [ih]
      split_ifs <;> rfl

lemma gsid_data_sources (fbao fem : String → Except Unit Dict) (code : String)
    (s : CollectorState) :
    ((get_stock_indicator_data fbao fem code s).2).data_sources = s.data_sources :=
  gsid_go_data_sources fbao fem code (List.range s.data_sources.length) s

lemma gsid_all_fail (fbao fem : String → Except Unit Dict) (code : String)
    (s : CollectorState) (hds : s.data_sources = ["baostock", "eastmoney", "ths"])
    (h1 : fbao code = Except.error ()) (h2 : fem code = Except.error ()) :
    (get_stock_indicator_data fbao fem code s).1 = placeholder_record code := by
  obtain ⟨ds, idx, src⟩ := s
  simp only at hds
  subst hds
  have hrange : List.range (["baostock", "eastmoney", "ths"] : List String).length
      = [0, 1, 2] := rfl
  unfold get_stock_indicator_data
  simp only
  rw [hrange]
  simp [get_stock_indicator_data_go, one_fetch, switch_to_next_source, h1, h2]

lemma collect_all_data_length (fbao fem : String → Except Unit Dict) :
    ∀ (stocks : List String) (s : CollectorState),
      (collect_all_data fbao fem stocks s).1.length = stocks.length := by
  intro stocks
  induction stocks with
  | nil => intro s; rfl
  | cons st rest ih =>
    intro s
    simp only [collect_all_data, List.length_cons]
    rw [ih]

/-- C7: one entity's total failure never aborts the batch.  For every
universe of entities, the per-stock loop of `collect_all_data` produces
exactly one record per enumerated entity, and an entity for which every
adapter raises contributes the identity-only placeholder (code and name
only) passed through the reconciler, with its market segment attached. -/
theorem c7_batch_resilience (fbao fem : String → Except Unit Dict)
    (stocks : List String) (s : CollectorState)
    (hds : s.data_sources = ["baostock", "eastmoney", "ths"]) :
    (collect_all_data fbao fem stocks s).1.length = stocks.length ∧
    (∀ (i : ℕ) (c : String), stocks[i]? = some c →
      fbao c = Except.error () → fem c = Except.error () →
      (collect_all_data fbao fem stocks s).1[i]?
        = some (calculate_comprehensive_indicators
            { stock_code := c, stock_name := c }, _get_stock_board c)) := by
  refine ⟨collect_all_data_length fbao fem stocks s, ?_⟩
  induction stocks generalizing s with
  | nil =>
    intro i c hget
    simp at hget
  | cons st rest ih =>
    intro i c hget h1 h2
    cases i with
    | zero =>
      simp only [List.getElem?_cons_zero, Option.some.injEq] at hget
      subst hget
      simp only [collect_all_data]
      rw [List.getElem?_cons_zero, gsid_all_fail fbao fem st s hds h1 h2,
        toAttributeRecord_placeholder]
    | succ n =>
      simp only [List.getElem?_cons_succ] at hget
      have hds' : ((get_stock_indicator_data fbao fem st s).2).data_sources
          = ["baostock", "eastmoney", "ths"] := by
        rw [gsid_data_sources]
        exact hds
      simp only [collect_all_data]
      rw [List.getElem?_cons_succ]
      exact ih _ hds' n c hget h1 h2

/-- An injected adapter that raises on every entity. -/
def always_raises : String → Except Unit Dict := fun _ => Except.error ()

/-- Witness for C7: a two-entity universe where every adapter raises for
every entity; the output has one record per entity, and entity 1's record
is the reconciled identity-only placeholder. -/
theorem c7_batch_resilience_witness :
    (collect_all_data always_raises always_raises ["sh.600001", "sz.300001"]
        initialState).1.length = 2 ∧
    (collect_all_data always_raises always_raises ["sh.600001", "sz.300001"]
        initialState).1[0]?
      = some (calculate_comprehensive_indicators
          { stock_code := "sh.600001", stock_name := "sh.600001" },
          _get_stock_board "sh.600001") := by
  have h := c7_batch_resilience always_raises always_raises ["sh.600001", "sz.300001"]
    initialState rfl
  exact ⟨h.1, h.2 0 "sh.600001" rfl rfl rfl⟩

/-- Specification-side reference (spec section 4.2): the first adapter
result that is a non-empty list, else the empty list. -/
def firstUsableUniverse : List (Except Unit (List String)) → List String
  | [] => []
  | Except.ok l :: rest => if l ≠ [] then l else firstUsableUniverse rest
  | Except.error _ :: rest => firstUsableUniverse rest

lemma get_all_stocks_go_tail (fu1 fu2 fu3 : Except Unit (List String))
    (s : CollectorState) (hds : s.data_sources = ["baostock", "eastmoney", "ths"]) :
    (get_all_stocks_go fu1 fu2 fu3 [1, 2] s).1 = firstUsableUniverse [fu2, fu3] := by
  obtain ⟨ds, idx, src⟩ := s
  simp only at hds
  subst hds
  rcases fu2 with e2 | l2
  · rcases fu3 with e3 | l3
    · simp [get_all_stocks_go, universe_fetch, firstUsableUniverse,
        switch_to_next_source]
    · by_cases h3 : l3 = [] <;>
        simp [get_all_stocks_go, universe_fetch, firstUsableUniverse,
          switch_to_next_source, h3]
  · by_cases h2 : l2 = [] <;>
      rcases fu3 with e3 | l3
    · simp [get_all_stocks_go, universe_fetch, firstUsableUniverse,
        switch_to_next_source, h2]
    · by_cases h3 : l3 = [] <;>
        simp [get_all_stocks_go, universe_fetch, firstUsableUniverse,
          switch_to_next_source, h2, h3]
    · simp [get_all_stocks_go, universe_fetch, firstUsableUniverse,
        switch_to_next_source, h2]
    · simp [get_all_stocks_go, universe_fetch, firstUsableUniverse,
        switch_to_next_source, h2]

/-- `get_all_stocks` refines the specification's usability rule for
fetch-universe: the result is the first adapter result that is a non-empty
list. -/
lemma get_all_stocks_firstUsable (fu1 fu2 fu3 : Except Unit (List String)) :
    (get_all_stocks fu1 fu2 fu3 initialState).1 = firstUsableUniverse [fu1, fu2, fu3] := by
  have hrange : List.range initialState.data_sources.length = [0, 1, 2] := rfl
  unfold get_all_stocks
  rw [hrange]
  rcases fu1 with e1 | l1
  · obtain ⟨⟩ := e1
    have h0 : (get_all_stocks_go (Except.error ()) fu2 fu3 [0, 1, 2] initialState).1
        = (get_all_stocks_go (Except.error ()) fu2 fu3 [1, 2]
            (switch_to_next_source initialState)).1 := by
      simp [get_all_stocks_go, universe_fetch, initialState]
    rw [h0, get_all_stocks_go_tail (Except.error ()) fu2 fu3
      (switch_to_next_source initialState) rfl]
    simp [firstUsableUniverse]
  · by_cases h1 : l1 = []
    · subst h1
      have h0 : (get_all_stocks_go (Except.ok []) fu2 fu3 [0, 1, 2] initialState).1
          = (get_all_stocks_go (Except.ok []) fu2 fu3 [1, 2]
              (switch_to_next_source initialState)).1 := by
        simp [get_all_stocks_go, universe_fetch, initialState]
      rw [h0, get_all_stocks_go_tail (Except.ok []) fu2 fu3
        (switch_to_next_source initialState) rfl]
      simp [firstUsableUniverse]
    · simp [get_all_stocks_go, universe_fetch, firstUsableUniverse, initialState, h1]

lemma gsid_bao_accepts (fbao fem : String → Except Unit Dict) (code : String) (d : Dict)
    (s : CollectorState) (hds : s.data_sources = ["baostock", "eastmoney", "ths"])
    (hok : fbao code = Except.ok d) (hne : d ≠ []) :
    (get_stock_indicator_data fbao fem code s).1 = d := by
  obtain ⟨ds, idx, src⟩ := s
  simp only at hds
  subst hds
  have hrange : List.range (["baostock", "eastmoney", "ths"] : List String).length
      = [0, 1, 2] := rfl
  unfold get_stock_indicator_data
  simp only
  rw [hrange]
  simp [get_stock_indicator_data_go, one_fetch, hok, hne]

lemma gsid_em_accepts (fbao fem : String → Except Unit Dict) (code : String) (d : Dict)
    (s : CollectorState) (hds : s.data_sources = ["baostock", "eastmoney", "ths"])
    (h1 : fbao code = Except.error ()) (hok : fem code = Except.ok d)
    (hlen : d.length > 1) :
    (get_stock_indicator_data fbao fem code s).1 = d := by
  obtain ⟨ds, idx, src⟩ := s
  simp only at hds
  subst hds
  have hne : d ≠ [] := by
    intro h
    rw [h] at hlen
    simp at hlen
  have hrange : List.range (["baostock", "eastmoney", "ths"] : List String).length
      = [0, 1, 2] := rfl
  unfold get_stock_indicator_data
  simp only
  rw [hrange]
  simp [get_stock_indicator_data_go, one_fetch, switch_to_next_source, h1, hok, hne, hlen]

lemma gsid_em_rejects (fbao fem : String → Except Unit Dict) (code : String) (d : Dict)
    (s : CollectorState) (hds : s.data_sources = ["baostock", "eastmoney", "ths"])
    (h1 : fbao code = Except.error ()) (hok : fem code = Except.ok d)
    (hnot : ¬ d.length > 1) :
    (get_stock_indicator_data fbao fem code s).1 = placeholder_record code := by
  obtain ⟨ds, idx, src⟩ := s
  simp only at hds
  subst hds
  have hrange : List.range (["baostock", "eastmoney", "ths"] : List String).length
      = [0, 1, 2] := rfl
  unfold get_stock_indicator_data
  simp only
  rw [hrange]
  simp [get_stock_indicator_data_go, one_fetch, switch_to_next_source, h1, hok, hnot]

/-- An identity-only fetched record: just the seeded `stock_code` key. -/
def identity_only : Dict := [("stock_code", Value.str "sh.600000")]

/-- A fetched record with a field beyond the seeded identity key. -/
def em_detail : Dict :=
  [("stock_code", Value.str "sh.600000"), ("close_price", Value.num 10)]

/-- C6 counterexample: the `baostock` branch of `get_stock_indicator_data`
checks only `if data:` (aqu142.py line 613), so an identity-only record —
exactly the `{'stock_code': ...}` seed, one key — is accepted as that
adapter's success, contradicting the claim that for every adapter an
identity-only record is not accepted. -/
theorem c6_counterexample :
    identity_only.length = 1 ∧
    (get_stock_indicator_data (fun _ => Except.ok identity_only)
        (fun _ => Except.error ()) "sh.600000" initialState).1 = identity_only := by
  constructor
  · rfl
  · exact gsid_bao_accepts (fun _ => Except.ok identity_only) (fun _ => Except.error ())
      "sh.600000" identity_only initialState rfl rfl (by simp [identity_only])

/-- C6 (amended): usability is operation-specific, but the fetch-one
threshold is adapter-specific, not uniform.  (1) For fetch-universe the
resolver returns the first non-empty list.  (2) The `baostock` branch of
`get_stock_indicator_data` accepts any non-empty record — identity-only
records included.  (3) The `eastmoney` branch accepts a record exactly when
it has more than the one seeded identity key (`len(data) > 1`); (4) an
`eastmoney` record without that is rejected, and with no other source
available the identity-only placeholder is returned. -/
theorem c6_usability_amended :
    (∀ fu1 fu2 fu3 : Except Unit (List String),
      (get_all_stocks fu1 fu2 fu3 initialState).1
        = firstUsableUniverse [fu1, fu2, fu3]) ∧
    (∀ (fbao fem : String → Except Unit Dict) (code : String) (d : Dict)
        (s : CollectorState), s.data_sources = ["baostock", "eastmoney", "ths"] →
      fbao code = Except.ok d → d ≠ [] →
      (get_stock_indicator_data fbao fem code s).1 = d) ∧
    (∀ (fbao fem : String → Except Unit Dict) (code : String) (d : Dict)
        (s : CollectorState), s.data_sources = ["baostock", "eastmoney", "ths"] →
      fbao code = Except.error () → fem code = Except.ok d → d.length > 1 →
      (get_stock_indicator_data fbao fem code s).1 = d) ∧
    (∀ (fbao fem : String → Except Unit Dict) (code : String) (d : Dict)
        (s : CollectorState), s.data_sources = ["baostock", "eastmoney", "ths"] →
      fbao code = Except.error () → fem code = Except.ok d → ¬ d.length > 1 →
      (get_stock_indicator_data fbao fem code s).1 = placeholder_record code) :=
  ⟨get_all_stocks_firstUsable, gsid_bao_accepts, gsid_em_accepts, gsid_em_rejects⟩

/-- Witness for C6 (amended): each clause applied to literal adapters. -/
theorem c6_usability_witness :
    (get_all_stocks (Except.ok ["sh.600000"]) (Except.error ()) (Except.error ())
        initialState).1
      = firstUsableUniverse [Except.ok ["sh.600000"], Except.error (),
          Except.error ()] ∧
    (get_stock_indicator_data (fun _ => Except.ok identity_only)
        (fun _ => Except.error ()) "sh.600000" initialState).1 = identity_only ∧
    (get_stock_indicator_data (fun _ => Except.error ())
        (fun _ => Except.ok em_detail) "sh.600000" initialState).1 = em_detail ∧
    (get_stock_indicator_data (fun _ => Except.error ())
        (fun _ => Except.ok identity_only) "sh.600000" initialState).1
      = placeholder_record "sh.600000" := by
  obtain ⟨h1, h2, h3, h4⟩ := c6_usability_amended
  exact ⟨h1 _ _ _,
    h2 _ _ _ _ _ rfl rfl (by simp [identity_only]),
    h3 _ _ _ _ _ rfl rfl rfl (by simp [em_detail]),
    h4 _ _ _ _ _ rfl rfl rfl (by simp [identity_only])⟩

/-- C8: the classifier `_get_stock_board` on the spec's literal cases, and
the STAR-board prefix rule is applied first: every code with the `sh.688`
prefix classifies as 科创板 (SciTechBoard) regardless of the later
main-board tests. -/
theorem c8_classifier :
    _get_stock_board "sh.688001" = "科创板" ∧
    _get_stock_board "sh.600001" = "主板" ∧
    _get_stock_board "sz.000001" = "主板" ∧
    _get_stock_board "sz.300001" = "创业板" ∧
    _get_stock_board "sz.200001" = "其他" ∧
    (∀ code : String, str_startswith code "sh.688" = true →
      _get_stock_board code = "科创板") := by
  refine ⟨rfl, rfl, rfl, rfl, rfl, ?_⟩
  intro code h
  unfold _get_stock_board
  rw [if_pos h]

/-- Witness for C8: the prefix clause applied at a concrete STAR-board
code. -/
theorem c8_classifier_witness : _get_stock_board "sh.688999" = "科创板" :=
  c8_classifier.2.2.2.2.2 "sh.688999" rfl

/-- A response of the Eastmoney listing endpoint: the reported total item
count and the `f12` code of each item of `data.diff`. -/
structure EMResponse where
  total : ℕ
  codes : List String
  deriving DecidableEq

/-- aqu142.py lines 132-176, `get_all_stocks_eastmoney`: the entity
enumerator issues a single request with the fixed parameters `pn=1`
(page number) and `pz=5000` (page size) and never another; the reported
total is not read.  The second component records the page requests issued
as (page number, page size) pairs.  `none` models a failed request, a
non-200 status or a response without `data`/`diff` (all produce the empty
list); otherwise each item's code is converted to the `sh.`/`sz.` form by
its leading character (lines 164-169). -/
def get_all_stocks_eastmoney (server : ℕ → ℕ → Option EMResponse) :
    List String × List (ℕ × ℕ) :=
  match server 1 5000 with
  | some resp =>
    (resp.codes.map (fun code =>
      if str_startswith code "6" then "sh." ++ code else "sz." ++ code), [(1, 5000)])
  | none => ([], [(1, 5000)])

/-- A listing source that reports a total-item count of 250 (with any page
size the enumerator might request). -/
def server_total_250 : ℕ → ℕ → Option EMResponse :=
  fun _ _ => some { total := 250, codes := ["600000", "000001"] }

/-- C9 counterexample: against a source reporting `total=250`, the
enumerator issues exactly one page request, not 3: there is no
`ceil(total / page_size)` pagination loop in the source. -/
theorem c9_counterexample :
    (get_all_stocks_eastmoney server_total_250).2.length = 1 ∧ (1 : ℕ) ≠ 3 :=
  ⟨rfl, by decide⟩

/-- C9 (amended): for every listing source, the enumerator issues exactly
one page request, with page number 1 and page size 5000, and stops; the
reported total never causes further requests. -/
theorem c9_pagination_amended (server : ℕ → ℕ → Option EMResponse) :
    (get_all_stocks_eastmoney server).2 = [(1, 5000)] ∧
    (get_all_stocks_eastmoney server).2.length = 1 := by
  cases h : server 1 5000 <;> simp [get_all_stocks_eastmoney, h]
